import Mathlib

/-!
Shallow embedding of `src/engineio/asyncio_server.py` (class `AsyncServer`).

The server state is the session table `self.sockets` (a Python dict mapping
session ids to per-session socket objects).  The dispatcher `handle_request`,
the handshake `_handle_connect`, the event bridge `_trigger_event`, `send`
and `disconnect` are translated to pure Lean functions that thread the table
explicitly and record the external calls they perform in an event trace.

External collaborators (the per-session socket's get/post/poll/close/send
behaviour, the compression functions, the CORS header computation and the
registered connect handler) are supplied as oracle functions in an `Ext`
bundle, so a theorem quantifying over `Ext` covers every behaviour of the
collaborators, and a concrete `Ext` makes the model executable.
-/

set_option autoImplicit false

namespace EngineIO

/-- Wire packet.  The code under `src/` constructs only OPEN (handshake,
`_handle_connect` line 145) and MESSAGE (`send` line 39) packets. -/
inductive Packet where
  | OPEN (sid : String) (upgrades : List String) (pingTimeout pingInterval : Nat)
  | MESSAGE (data : String) (binary : Option Bool)
deriving DecidableEq, Repr

/-- Per-session socket object as seen from the server: the server code reads
and writes the `connected` and `closed` attributes (lines 100 and 160). -/
structure AsyncSocket where
  sid : String
  connected : Bool
  closed : Bool
deriving DecidableEq, Repr

/-- The session table `self.sockets`: a Python dict from sid to socket,
modelled as an association list with dict semantics. -/
abbrev Table := List (String × AsyncSocket)

/-- Python `d[k]` / `d.get(k)`: first entry with the given key. -/
def dictGet (t : Table) (k : String) : Option AsyncSocket :=
  match t with
  | [] => none
  | (k2, v) :: rest => if k2 == k then some v else dictGet rest k

/-- Python `k in d`. -/
def dictContains (t : Table) (k : String) : Bool :=
  (dictGet t k).isSome

/-- Python `d[k] = v`: replace the entry in place if the key is present,
otherwise append a new entry. -/
def dictSet (t : Table) (k : String) (v : AsyncSocket) : Table :=
  match t with
  | [] => [(k, v)]
  | (k2, v2) :: rest => if k2 == k then (k2, v) :: rest else (k2, v2) :: dictSet rest k v

/-- Python `del d[k]` (every call site in the source is guarded, so the
missing-key `KeyError` case never arises). -/
def dictDel (t : Table) (k : String) : Table :=
  t.filter (fun p => p.1 != k)

/-- A Python value as far as the `is False` test of `_handle_connect`
line 152 is concerned: the result of a connect handler. -/
inductive PyVal where
  | pynone
  | pyfalse
  | pytrue
  | obj (s : String)
deriving DecidableEq, Repr

/-- A non-descriptor Python value flowing out of the dispatcher:
`None`, a list of packets, or some other (truthy) object such as a
framework websocket response. -/
inductive Raw where
  | pynone
  | list (ps : List Packet)
  | obj (s : String)
deriving DecidableEq, Repr

/-- Python truthiness, for `r or []` at line 117: `None` and the empty
list are falsy. -/
def truthy : Raw → Bool
  | Raw.pynone => false
  | Raw.list ps => !ps.isEmpty
  | Raw.obj _ => true

/-- Internal HTTP response descriptor: the dicts produced by `_ok`,
`_bad_request`, `_unauthorized` and `_method_not_found`, with keys
`status`, `headers` and `response`. -/
structure RDescriptor where
  status : Nat
  headers : List (String × String)
  response : String
deriving DecidableEq, Repr

/-- What the dispatcher hands to the response-assembly code at line 116:
either a response descriptor (a dict) or some other raw value. -/
inductive DispatchResult where
  | descriptor (r : RDescriptor)
  | raw (v : Raw)
deriving DecidableEq, Repr

/-- The value `handle_request` hands to the adapter: either a raw
pass-through (line 117) or a finalized (status, headers, body) triple
(line 129, `make_response`). -/
inductive FinalResponse where
  | passthrough (v : Raw)
  | http (status : Nat) (headers : List (String × String)) (body : String)
deriving DecidableEq, Repr

/-- Trace of the externally visible calls a server operation performs.
`sendPkt` and `triggerEv` record a snapshot of the session table at the
moment of the call, so "the sid is visible while this call runs" is a
statement about the event itself. -/
inductive Event where
  | insert (sid : String)
  | sendPkt (visible : Table) (sid : String) (pkt : Packet)
  | triggerEv (visible : Table) (name : String) (sid : String)
  | getCall (sid : String)
  | postCall (sid : String)
  | pollCall (sid : String)
  | closeCall (sid : String)
deriving DecidableEq, Repr

/-- Result of a server operation: a normal return with the new table and
the trace, or an uncaught exception propagating to the caller (the table
at that moment is retained by the server object). -/
inductive Outcome (α : Type) where
  | ok (a : α) (t : Table) (tr : List Event)
  | exn (t : Table) (tr : List Event)
deriving DecidableEq, Repr

def outResult {α : Type} : Outcome α → Option α
  | Outcome.ok a _ _ => some a
  | Outcome.exn _ _ => none

def outTable {α : Type} : Outcome α → Table
  | Outcome.ok _ t _ => t
  | Outcome.exn t _ => t

def outTrace {α : Type} : Outcome α → List Event
  | Outcome.ok _ _ tr => tr
  | Outcome.exn _ tr => tr

/-- Normalized request environment: the fields of `environ` the source
reads (`REQUEST_METHOD`, the parsed `QUERY_STRING`, `ACCEPT_ENCODING`).
The query is the multi-dict produced by `urllib.parse.parse_qs` (an
external library call), whose value lists are always non-empty. -/
structure Environ where
  method : String
  query : List (String × List String)
  accept_encoding : String
deriving DecidableEq, Repr

/-- Value list for a query key (`query[k]`). -/
def qvals (q : List (String × List String)) (k : String) : Option (List String) :=
  (q.find? (fun p => p.1 == k)).map (fun p => p.2)

/-- Python `k in query`. -/
def qcontains (q : List (String × List String)) (k : String) : Bool :=
  (qvals q k).isSome

/-- `query[k][0]` when the key is present (parse_qs value lists are
non-empty), `None` otherwise. -/
def qfirst (q : List (String × List String)) (k : String) : Option String :=
  match qvals q k with
  | some (v :: _) => some v
  | _ => none

/-- Lines 71-74: `b64` is true when the query carries `b64` with value
`"1"` or a case-insensitive `"true"`. -/
def qb64 (q : List (String × List String)) : Bool :=
  match qfirst q "b64" with
  | some v => v == "1" || v.toLower == "true"
  | none => false

/-- Line 77: `query.get('transport', ['polling'])[0]`. -/
def transportOf (q : List (String × List String)) : String :=
  (qfirst q "transport").getD "polling"

/-- Python `str.split(c)` on the character level (the stdlib split is an
external call; this mirrors its semantics, `"" -> [""]` included). -/
def listSplitOnChar (c : Char) : List Char → List (List Char)
  | [] => [[]]
  | x :: xs =>
    match listSplitOnChar c xs, x == c with
    | r, true => [] :: r
    | y :: ys, false => (x :: y) :: ys
    | [], false => [[x]]

/-- Python `str.split(c)` for strings. -/
def strSplitChar (c : Char) (s : String) : List String :=
  (listSplitOnChar c s.data).map (fun l => String.mk l)

/-- Python `str.strip()`: drop leading and trailing whitespace. -/
def strTrim (s : String) : String :=
  String.mk ((((s.data.dropWhile Char.isWhitespace).reverse).dropWhile Char.isWhitespace).reverse)

/-- Python `str.lower()`. -/
def strLower (s : String) : String :=
  String.mk (s.data.map Char.toLower)

/-- Lines 120-121: `[e.split(';')[0].strip() for e in
environ.get('ACCEPT_ENCODING', '').split(',')]`. -/
def parse_accept_encodings (s : String) : List String :=
  (strSplitChar ',' s).map (fun e => strTrim ((strSplitChar ';' e).headD ""))

/-- Modelled from the spec: the wire packet codec is an external
collaborator (spec section 2); this stand-in encodes a packet list into a
200 polling body for `_ok`. -/
def encode_payload (ps : List Packet) (b64 : Bool) : String :=
  (if b64 then "b64:" else "") ++
    String.mk (ps.foldr (fun p acc => (reprStr p).data ++ (';' :: acc)) [])

/-- Modelled from the spec: `server.Server._bad_request` is not under
`src/`; spec sections 6 and 7 assign BadRequest the status 400. -/
def bad_request : RDescriptor :=
  { status := 400, headers := [], response := "Bad Request" }

/-- Modelled from the spec: `server.Server._unauthorized` is not under
`src/`; the spec assigns it status 401. -/
def unauthorized : RDescriptor :=
  { status := 401, headers := [], response := "Unauthorized" }

/-- Modelled from the spec: `server.Server._method_not_found` is not under
`src/`; the spec assigns MethodNotAllowed the status 405. -/
def method_not_found : RDescriptor :=
  { status := 405, headers := [], response := "Method Not Allowed" }

/-- Modelled from the spec: `server.Server._ok` is not under `src/`.  With
packets it is a 200 response whose body is the encoded payload and whose
headers are the ones passed in; with no packets it is the empty 200
acknowledgment of spec section 4.1. -/
def ok_ (packets : Option (List Packet)) (headers : Option (List (String × String)))
    (b64 : Bool) : RDescriptor :=
  match packets with
  | some ps => { status := 200, headers := headers.getD [], response := encode_payload ps b64 }
  | none => { status := 200, headers := [], response := "" }

/-- Result of the external `socket.handle_get_request`: a Python value
(a list of packets or any other object) or an `IOError`. -/
inductive GetRet where
  | value (v : Raw)
  | ioError
deriving DecidableEq, Repr

/-- Outcome of one `handle_get_request` call, together with the value of
the socket's `closed` attribute once the call has returned (the call may
mutate the socket it runs on). -/
structure GetOutcome where
  ret : GetRet
  closedAfter : Bool
deriving DecidableEq, Repr

/-- Result of the external `socket.handle_post_request`: success or a
`ValueError` (payload decode failure). -/
inductive PostRet where
  | ok
  | valueError
deriving DecidableEq, Repr

/-- Outcome of one `handle_post_request` call, with the socket's `closed`
attribute after the call. -/
structure PostOutcome where
  ret : PostRet
  closedAfter : Bool
deriving DecidableEq, Repr

/-- Oracle bundle for the external collaborators: the registered connect
handler (`self.handlers`), the per-sid behaviour of the session socket's
get/post/poll/close operations, the compression functions
(`getattr(self, '_' + encoding)`) and the CORS header computation
(`self._cors_headers`, parent class). -/
structure Ext where
  handler_connect : Option (String → Environ → PyVal)
  getOutcome : String → GetOutcome
  postOutcome : String → PostOutcome
  closeOk : String → Bool
  pollPackets : String → List Packet
  compress : String → String → String
  cors : Environ → List (String × String)

/-- `AsyncServer._trigger_event` (lines 166-172): invokes the handler when
one is registered, but contains no `return` statement in either branch, so
the handler's result is discarded and the call always evaluates to `None`. -/
def trigger_event (h : Option (String → Environ → PyVal)) (sid : String) (env : Environ) :
    PyVal :=
  match h with
  | some handler => (fun _ => PyVal.pynone) (handler sid env)
  | none => PyVal.pynone

/-- The socket object constructed at line 142
(`asyncio_socket.AsyncSocket(self, sid)`): not yet connected, not closed. -/
def newSocket (sid : String) : AsyncSocket :=
  { sid := sid, connected := false, closed := false }

/-- Modelled from the spec: `server.Server._upgrades` is not under `src/`;
spec section 4.2 says only a polling-initiated session advertises the
websocket upgrade, a websocket-initiated one advertises none. -/
def upgrades_ (transport : String) : List String :=
  if transport == "polling" then ["websocket"] else []

/-- The OPEN packet built at lines 145-149. -/
def openPacket (cfg_ping_timeout cfg_ping_interval : Nat) (transport sid : String) : Packet :=
  Packet.OPEN sid (upgrades_ transport) (cfg_ping_timeout * 1000) (cfg_ping_interval * 1000)

/-- Server configuration attributes the translated code reads. -/
structure Config where
  http_compression : Bool
  compression_threshold : Nat
  compression_methods : List String
  cookie : Option String
  ping_timeout : Nat
  ping_interval : Nat
deriving Repr

/-- Line 162-163: the optional `Set-Cookie` header of the polling
handshake response. -/
def cookieHeaders (cfg : Config) (sid : String) : Option (List (String × String)) :=
  cfg.cookie.map (fun c => [("Set-Cookie", c ++ "=" ++ sid)])

/-- The first three steps of `_handle_connect` (lines 141-152): insert the
new socket under the fresh sid, send the OPEN packet through the socket,
invoke the connect event.  The table snapshots inside the send and trigger
events are the table as it stands when those calls are made. -/
def connectTrace (cfg : Config) (table : Table) (transport sid : String) : List Event :=
  [Event.insert sid,
   Event.sendPkt (dictSet table sid (newSocket sid)) sid
     (openPacket cfg.ping_timeout cfg.ping_interval transport sid),
   Event.triggerEv (dictSet table sid (newSocket sid)) "connect" sid]

/-- `AsyncServer._handle_connect` (lines 139-164).  The fresh sid produced
by `self._generate_id()` (parent class) is a parameter. -/
def handle_connect (cfg : Config) (ext : Ext) (env : Environ) (transport : String)
    (b64 : Bool) (sid : String) (table : Table) : Outcome DispatchResult :=
  if trigger_event ext.handler_connect sid env == PyVal.pyfalse then
    Outcome.ok (DispatchResult.descriptor unauthorized)
      (dictDel (dictSet table sid (newSocket sid)) sid)
      (connectTrace cfg table transport sid)
  else if transport == "websocket" then
    match ext.getOutcome sid with
    | { ret := GetRet.value v, closedAfter := ca } =>
        Outcome.ok (DispatchResult.raw v)
          (dictSet table sid { newSocket sid with closed := ca })
          (connectTrace cfg table transport sid ++ [Event.getCall sid])
    | { ret := GetRet.ioError, closedAfter := _ } =>
        Outcome.exn (dictSet table sid (newSocket sid))
          (connectTrace cfg table transport sid ++ [Event.getCall sid])
  else
    Outcome.ok
      (DispatchResult.descriptor (ok_ (some (ext.pollPackets sid)) (cookieHeaders cfg sid) b64))
      (dictSet table sid { newSocket sid with connected := true })
      (connectTrace cfg table transport sid ++ [Event.pollCall sid])

/-- Lines 91-101 after a successful `handle_get_request` call: the socket's
mutated `closed` flag lands in the table, and the entry is deleted when the
socket now reports itself closed (line 100). -/
def getAftermath (table : Table) (sid : String) (sock : AsyncSocket) (closedAfter : Bool) :
    Table :=
  if closedAfter then dictDel (dictSet table sid { sock with closed := closedAfter }) sid
  else dictSet table sid { sock with closed := closedAfter }

/-- The dispatcher, `AsyncServer.handle_request` lines 64-115: everything
up to the point where `r` holds either a response descriptor or a raw
pass-through value. -/
def dispatch (cfg : Config) (ext : Ext) (env : Environ) (table : Table) (freshSid : String) :
    Outcome DispatchResult :=
  if qcontains env.query "j" then
    Outcome.ok (DispatchResult.descriptor bad_request) table []
  else if env.method == "GET" then
    match qfirst env.query "sid" with
    | none =>
        if transportOf env.query != "polling" && transportOf env.query != "websocket" then
          Outcome.ok (DispatchResult.descriptor bad_request) table []
        else
          handle_connect cfg ext env (transportOf env.query) (qb64 env.query) freshSid table
    | some sid =>
        match dictGet table sid with
        | none => Outcome.ok (DispatchResult.descriptor bad_request) table []
        | some sock =>
            match ext.getOutcome sid with
            | { ret := GetRet.value (Raw.list ps), closedAfter := ca } =>
                Outcome.ok (DispatchResult.descriptor (ok_ (some ps) none (qb64 env.query)))
                  (getAftermath table sid sock ca) [Event.getCall sid]
            | { ret := GetRet.value v, closedAfter := ca } =>
                Outcome.ok (DispatchResult.raw v)
                  (getAftermath table sid sock ca) [Event.getCall sid]
            | { ret := GetRet.ioError, closedAfter := _ } =>
                Outcome.ok (DispatchResult.descriptor bad_request) (dictDel table sid)
                  [Event.getCall sid]
  else if env.method == "POST" then
    match qfirst env.query "sid" with
    | none => Outcome.ok (DispatchResult.descriptor bad_request) table []
    | some sid =>
        match dictGet table sid with
        | none => Outcome.ok (DispatchResult.descriptor bad_request) table []
        | some sock =>
            match ext.postOutcome sid with
            | { ret := PostRet.ok, closedAfter := ca } =>
                Outcome.ok (DispatchResult.descriptor (ok_ none none false))
                  (dictSet table sid { sock with closed := ca }) [Event.postCall sid]
            | { ret := PostRet.valueError, closedAfter := ca } =>
                Outcome.ok (DispatchResult.descriptor bad_request)
                  (dictSet table sid { sock with closed := ca }) [Event.postCall sid]
  else
    Outcome.ok (DispatchResult.descriptor method_not_found) table []

/-- Lines 118-127: compress the body and append a `Content-Encoding`
header when compression is on, the body is long enough, and some encoding
of the request's accept-encodings list (in the request's order) is among
the configured methods. -/
def apply_compression (cfg : Config) (ext : Ext) (env : Environ) (r : RDescriptor) :
    RDescriptor :=
  if cfg.http_compression && decide (cfg.compression_threshold ≤ r.response.length) then
    match (parse_accept_encodings env.accept_encoding).find?
        (fun e => cfg.compression_methods.contains e) with
    | some enc =>
        { r with response := ext.compress enc r.response,
                 headers := r.headers ++ [("Content-Encoding", enc)] }
    | none => r
  else r

/-- Lines 116-131: the response assembly.  A non-dict result is passed
through as `r or []`; a descriptor is compressed, gets the CORS headers
appended and is handed to the adapter's `make_response`. -/
def finalize (cfg : Config) (ext : Ext) (env : Environ) : DispatchResult → FinalResponse
  | DispatchResult.raw v => FinalResponse.passthrough (if truthy v then v else Raw.list [])
  | DispatchResult.descriptor r =>
      FinalResponse.http (apply_compression cfg ext env r).status
        ((apply_compression cfg ext env r).headers ++ ext.cors env)
        ((apply_compression cfg ext env r).response)

/-- `AsyncServer.handle_request` (lines 56-131) end to end. -/
def handle_request (cfg : Config) (ext : Ext) (env : Environ) (table : Table)
    (freshSid : String) : Outcome FinalResponse :=
  match dispatch cfg ext env table freshSid with
  | Outcome.ok r t tr => Outcome.ok (finalize cfg ext env r) t tr
  | Outcome.exn t tr => Outcome.exn t tr

/-- `AsyncServer.send` (lines 21-40): look the socket up; a missing sid is
caught (`KeyError`), logged and swallowed; otherwise one MESSAGE packet is
sent through the socket. -/
def send (table : Table) (sid : String) (data : String) (binary : Option Bool) :
    Outcome Unit :=
  match dictGet table sid with
  | none => Outcome.ok () table []
  | some _ => Outcome.ok () table [Event.sendPkt table sid (Packet.MESSAGE data binary)]

/-- The `for client in six.itervalues(self.sockets): client.close()` loop
of `disconnect` (lines 52-53): closes each socket in table order; a close
that raises aborts the loop, the exception propagating (there is no
try/except around the loop).  Returns the close events performed. -/
def closeAll (ext : Ext) : Table → Except (List Event) (List Event)
  | [] => Except.ok []
  | (sid, _) :: rest =>
    if ext.closeOk sid then
      match closeAll ext rest with
      | Except.ok tr => Except.ok (Event.closeCall sid :: tr)
      | Except.error tr => Except.error (Event.closeCall sid :: tr)
    else Except.error [Event.closeCall sid]

/-- `AsyncServer.disconnect` (lines 42-54).  With a sid: `_get_socket`
(parent class, raises `KeyError` on a missing sid per spec section 9),
then `close()`, then `del self.sockets[sid]` — a failing close propagates
before the deletion.  With no sid: close every socket, then
`self.sockets = {}` — a failing close propagates before the table is
emptied. -/
def disconnect (ext : Ext) (table : Table) (sid? : Option String) : Outcome Unit :=
  match sid? with
  | some sid =>
    match dictGet table sid with
    | none => Outcome.exn table []
    | some _ =>
      if ext.closeOk sid then Outcome.ok () (dictDel table sid) [Event.closeCall sid]
      else Outcome.exn table [Event.closeCall sid]
  | none =>
    match closeAll ext table with
    | Except.ok tr => Outcome.ok () [] tr
    | Except.error tr => Outcome.exn table tr

theorem dictGet_set_self (t : Table) (k : String) (v : AsyncSocket) :
    dictGet (dictSet t k v) k = some v := by
  induction t with
  | nil => simp [dictSet, dictGet]
  | cons p rest ih =>
      obtain ⟨k2, v2⟩ := p
      by_cases h : k2 == k
      · simp [dictSet, dictGet, h]
      · simp only [dictSet, dictGet, h]
        simpa [h] using ih

theorem dictGet_del_self (t : Table) (k : String) :
    dictGet (dictDel t k) k = none := by
  induction t with
  | nil => simp [dictDel, dictGet]
  | cons p rest ih =>
      obtain ⟨k2, v2⟩ := p
      simp only [dictDel, List.filter, bne] at ih ⊢
      by_cases h : k2 == k
      · simpa [h] using ih
      · simp [dictGet, h, ih]

theorem dictGet_del_ne (t : Table) (k k2 : String) (h : k2 ≠ k) :
    dictGet (dictDel t k) k2 = dictGet t k2 := by
  induction t with
  | nil => simp [dictDel, dictGet]
  | cons p rest ih =>
      obtain ⟨k3, v3⟩ := p
      simp only [dictDel, List.filter, bne] at ih ⊢
      by_cases h3 : k3 == k
      · have hne : (k3 == k2) = false := by
          simp only [beq_iff_eq] at h3
          subst h3
          exact beq_eq_false_iff_ne.mpr (fun hc => h hc.symm)
        simp [h3, dictGet, hne, ih]
      · by_cases h4 : k3 == k2
        · simp [h3, dictGet, h4]
        · simp [h3, dictGet, h4, ih]

theorem apply_compression_status (cfg : Config) (ext : Ext) (env : Environ)
    (r : RDescriptor) : (apply_compression cfg ext env r).status = r.status := by
  unfold apply_compression
  split
  · split <;> rfl
  · rfl

theorem finalize_descriptor (cfg : Config) (ext : Ext) (env : Environ) (r : RDescriptor) :
    finalize cfg ext env (DispatchResult.descriptor r)
      = FinalResponse.http r.status
          ((apply_compression cfg ext env r).headers ++ ext.cors env)
          ((apply_compression cfg ext env r).response) := by
  simp [finalize, apply_compression_status]

/-- A benign default oracle bundle for concrete witnesses: no connect
handler, every get delivers an empty packet list, every post succeeds,
every close succeeds, polls deliver nothing, compression is the identity,
no CORS headers. -/
def ext0 : Ext :=
  { handler_connect := none
    getOutcome := fun _ => { ret := GetRet.value (Raw.list []), closedAfter := false }
    postOutcome := fun _ => { ret := PostRet.ok, closedAfter := false }
    closeOk := fun _ => true
    pollPackets := fun _ => []
    compress := fun _ b => b
    cors := fun _ => [] }

/-- A default configuration for concrete witnesses, matching the library
defaults (compression on, threshold 1024, gzip then deflate, no cookie,
ping timeout 60s, ping interval 25s). -/
def cfg0 : Config :=
  { http_compression := true
    compression_threshold := 1024
    compression_methods := ["gzip", "deflate"]
    cookie := none
    ping_timeout := 60
    ping_interval := 25 }

/-- Claim C10: for every call to `send(sid, data, binary)` where `sid` is
not a key of the session table, the call returns normally without raising
(the `KeyError` is caught and only logged), sends nothing (the trace is
empty), and leaves the session table unchanged. -/
theorem c10_send_unknown_sid (table : Table) (sid data : String) (binary : Option Bool)
    (h : dictGet table sid = none) :
    send table sid data binary = Outcome.ok () table [] := by
  simp [send, h]

/-- Witness for C10: a concrete send to a sid absent from the table. -/
theorem c10_send_unknown_sid_witness :
    dictGet [("A", newSocket "A")] "S1" = none ∧
      send [("A", newSocket "A")] "S1" "hello" none
        = Outcome.ok () [("A", newSocket "A")] [] :=
  ⟨by decide, c10_send_unknown_sid [("A", newSocket "A")] "S1" "hello" none (by decide)⟩

/-- Claim C8: every GET request carrying a sid that is not a key of the
session table yields a 400 response and leaves the session table exactly
unchanged (this also covers a GET that is rejected for carrying `j`). -/
theorem c8_get_unknown_sid (cfg : Config) (ext : Ext) (env : Environ) (table : Table)
    (fresh s : String) (hm : env.method = "GET") (hs : qfirst env.query "sid" = some s)
    (ht : dictGet table s = none) :
    ∃ hs2 body, handle_request cfg ext env table fresh
      = Outcome.ok (FinalResponse.http 400 hs2 body) table [] := by
  refine ⟨(apply_compression cfg ext env bad_request).headers ++ ext.cors env,
          (apply_compression cfg ext env bad_request).response, ?_⟩
  by_cases hj : qcontains env.query "j" = true
  · simp [handle_request, dispatch, hj, finalize_descriptor, bad_request]
  · simp only [Bool.not_eq_true] at hj
    simp [handle_request, dispatch, hj, hm, hs, ht, finalize_descriptor, bad_request]

/-- Witness for C8: a concrete GET with an unknown sid on a one-entry
table. -/
theorem c8_get_unknown_sid_witness :
    (({ method := "GET", query := [("sid", ["S2"])], accept_encoding := "" } : Environ).method
        = "GET") ∧
    qfirst [("sid", ["S2"])] "sid" = some "S2" ∧
    dictGet [("A", newSocket "A")] "S2" = none ∧
    ∃ hs2 body,
      handle_request cfg0 ext0
          { method := "GET", query := [("sid", ["S2"])], accept_encoding := "" }
          [("A", newSocket "A")] "F"
        = Outcome.ok (FinalResponse.http 400 hs2 body) [("A", newSocket "A")] [] :=
  ⟨rfl, by decide, by decide,
    c8_get_unknown_sid cfg0 ext0
      { method := "GET", query := [("sid", ["S2"])], accept_encoding := "" }
      [("A", newSocket "A")] "F" "S2" rfl (by decide) (by decide)⟩

/-- Claim C6: for every GET request whose sid is present in the session
table, if the socket's get-handler raises an `IOError`, then that sid is
removed from the session table and a 400 BadRequest response is returned
(not a server error). -/
theorem c6_get_ioerror (cfg : Config) (ext : Ext) (env : Environ) (table : Table)
    (fresh s : String) (sock : AsyncSocket) (ca : Bool)
    (hm : env.method = "GET") (hj : qcontains env.query "j" = false)
    (hs : qfirst env.query "sid" = some s) (ht : dictGet table s = some sock)
    (hio : ext.getOutcome s = { ret := GetRet.ioError, closedAfter := ca }) :
    (∃ hs2 body, handle_request cfg ext env table fresh
        = Outcome.ok (FinalResponse.http 400 hs2 body) (dictDel table s) [Event.getCall s])
      ∧ dictGet (dictDel table s) s = none := by
  refine ⟨⟨(apply_compression cfg ext env bad_request).headers ++ ext.cors env,
           (apply_compression cfg ext env bad_request).response, ?_⟩,
          dictGet_del_self table s⟩
  simp [handle_request, dispatch, hj, hm, hs, ht, hio, finalize_descriptor, bad_request]

/-- Witness for C6: a concrete GET whose get-handler raises `IOError`. -/
theorem c6_get_ioerror_witness :
    (({ method := "GET", query := [("sid", ["A"])], accept_encoding := "" } : Environ).method
        = "GET") ∧
    qcontains [("sid", ["A"])] "j" = false ∧
    qfirst [("sid", ["A"])] "sid" = some "A" ∧
    dictGet [("A", newSocket "A")] "A" = some (newSocket "A") ∧
    ({ ext0 with getOutcome :=
        fun _ => { ret := GetRet.ioError, closedAfter := false } } : Ext).getOutcome "A"
      = { ret := GetRet.ioError, closedAfter := false } ∧
    ((∃ hs2 body,
        handle_request cfg0
          { ext0 with getOutcome := fun _ => { ret := GetRet.ioError, closedAfter := false } }
          { method := "GET", query := [("sid", ["A"])], accept_encoding := "" }
          [("A", newSocket "A")] "F"
          = Outcome.ok (FinalResponse.http 400 hs2 body) (dictDel [("A", newSocket "A")] "A")
              [Event.getCall "A"])
      ∧ dictGet (dictDel [("A", newSocket "A")] "A") "A" = none) :=
  ⟨rfl, by decide, by decide, by decide, rfl,
    c6_get_ioerror cfg0
      { ext0 with getOutcome := fun _ => { ret := GetRet.ioError, closedAfter := false } }
      { method := "GET", query := [("sid", ["A"])], accept_encoding := "" }
      [("A", newSocket "A")] "F" "A" (newSocket "A") false
      rfl (by decide) (by decide) (by decide) rfl⟩

/-- Claim C5: for every POST request whose sid is present in the session
table, a `ValueError` from the socket's post-handler yields a 400
response, success yields an empty 200 acknowledgment, and in either case
the table entry for that sid survives — even when the socket reports
itself closed after the call, since the closed state is not rechecked
after POST. -/
theorem c5_post_keeps_entry (cfg : Config) (ext : Ext) (env : Environ) (table : Table)
    (fresh s : String) (sock : AsyncSocket)
    (hm : env.method = "POST") (hj : qcontains env.query "j" = false)
    (hs : qfirst env.query "sid" = some s) (ht : dictGet table s = some sock) :
    ((ext.postOutcome s).ret = PostRet.ok →
        outResult (dispatch cfg ext env table fresh)
            = some (DispatchResult.descriptor { status := 200, headers := [], response := "" })
          ∧ ∃ hs2 body, handle_request cfg ext env table fresh
              = Outcome.ok (FinalResponse.http 200 hs2 body)
                  (dictSet table s { sock with closed := (ext.postOutcome s).closedAfter })
                  [Event.postCall s])
      ∧ ((ext.postOutcome s).ret = PostRet.valueError →
          ∃ hs2 body, handle_request cfg ext env table fresh
            = Outcome.ok (FinalResponse.http 400 hs2 body)
                (dictSet table s { sock with closed := (ext.postOutcome s).closedAfter })
                [Event.postCall s])
      ∧ dictGet (dictSet table s { sock with closed := (ext.postOutcome s).closedAfter }) s
          = some { sock with closed := (ext.postOutcome s).closedAfter } := by
  rcases hpo : ext.postOutcome s with ⟨ret, ca⟩
  simp only [hpo]
  cases ret with
  | ok =>
      refine ⟨fun _ => ⟨?_, ?_⟩, fun hcontra => absurd hcontra (by simp),
              dictGet_set_self table s _⟩
      · simp [dispatch, hj, hm, hs, ht, hpo, outResult, ok_]
      · refine ⟨(apply_compression cfg ext env (ok_ none none false)).headers ++ ext.cors env,
                (apply_compression cfg ext env (ok_ none none false)).response, ?_⟩
        simp [handle_request, dispatch, hj, hm, hs, ht, hpo, finalize_descriptor, ok_]
  | valueError =>
      refine ⟨fun hcontra => absurd hcontra (by simp), fun _ => ?_,
              dictGet_set_self table s _⟩
      refine ⟨(apply_compression cfg ext env bad_request).headers ++ ext.cors env,
              (apply_compression cfg ext env bad_request).response, ?_⟩
      simp [handle_request, dispatch, hj, hm, hs, ht, hpo, finalize_descriptor, bad_request]

/-- Witness for C5: a concrete POST on a present sid whose post-handler
succeeds but leaves the socket reporting itself closed; the entry
survives. -/
theorem c5_post_keeps_entry_witness :
    (({ method := "POST", query := [("sid", ["A"])], accept_encoding := "" } : Environ).method
        = "POST") ∧
    qcontains [("sid", ["A"])] "j" = false ∧
    qfirst [("sid", ["A"])] "sid" = some "A" ∧
    dictGet [("A", newSocket "A")] "A" = some (newSocket "A") ∧
    dictGet
        (dictSet [("A", newSocket "A")] "A"
          { newSocket "A" with
              closed := (({ ext0 with postOutcome :=
                fun _ => { ret := PostRet.ok, closedAfter := true } } : Ext).postOutcome
                  "A").closedAfter })
        "A"
      = some { newSocket "A" with
          closed := (({ ext0 with postOutcome :=
            fun _ => { ret := PostRet.ok, closedAfter := true } } : Ext).postOutcome
              "A").closedAfter } :=
  ⟨rfl, by decide, by decide, by decide,
    (c5_post_keeps_entry cfg0
        { ext0 with postOutcome := fun _ => { ret := PostRet.ok, closedAfter := true } }
        { method := "POST", query := [("sid", ["A"])], accept_encoding := "" }
        [("A", newSocket "A")] "F" "A" (newSocket "A")
        rfl (by decide) (by decide) (by decide)).2.2⟩

theorem trigger_event_eq_pynone (h : Option (String → Environ → PyVal)) (sid : String)
    (env : Environ) : trigger_event h sid env = PyVal.pynone := by
  cases h <;> rfl

/-- Claim C9: a GET with no sid whose transport query parameter is neither
`polling` nor `websocket` yields a 400 response with the session table
unchanged, and a missing transport parameter defaults to `polling`: the
dispatcher then runs the handshake with transport `polling`. -/
theorem c9_transport_validation (cfg : Config) (ext : Ext) (env env2 : Environ)
    (table : Table) (fresh tp : String)
    (hm : env.method = "GET") (hj : qcontains env.query "j" = false)
    (hs : qfirst env.query "sid" = none) (htp : qfirst env.query "transport" = some tp)
    (h1 : tp ≠ "polling") (h2 : tp ≠ "websocket")
    (hm2 : env2.method = "GET") (hj2 : qcontains env2.query "j" = false)
    (hs2 : qfirst env2.query "sid" = none) (htp2 : qfirst env2.query "transport" = none) :
    (∃ hs3 body, handle_request cfg ext env table fresh
        = Outcome.ok (FinalResponse.http 400 hs3 body) table [])
      ∧ dispatch cfg ext env2 table fresh
          = handle_connect cfg ext env2 "polling" (qb64 env2.query) fresh table := by
  constructor
  · refine ⟨(apply_compression cfg ext env bad_request).headers ++ ext.cors env,
            (apply_compression cfg ext env bad_request).response, ?_⟩
    simp [handle_request, dispatch, hj, hm, hs, transportOf, htp, h1, h2,
          finalize_descriptor, bad_request]
  · simp [dispatch, hj2, hm2, hs2, transportOf, htp2]

/-- Witness for C9: GET `?transport=udp` against a one-entry table, and a
GET with no transport parameter at all. -/
theorem c9_transport_validation_witness :
    (({ method := "GET", query := [("transport", ["udp"])], accept_encoding := "" } : Environ).method
        = "GET") ∧
    qfirst [("transport", ["udp"])] "transport" = some "udp" ∧
    ("udp" : String) ≠ "polling" ∧
    qfirst ([] : List (String × List String)) "transport" = none ∧
    ((∃ hs3 body, handle_request cfg0 ext0
          { method := "GET", query := [("transport", ["udp"])], accept_encoding := "" }
          [("A", newSocket "A")] "F"
          = Outcome.ok (FinalResponse.http 400 hs3 body) [("A", newSocket "A")] [])
      ∧ dispatch cfg0 ext0 { method := "GET", query := [], accept_encoding := "" }
            [("A", newSocket "A")] "F"
          = handle_connect cfg0 ext0 { method := "GET", query := [], accept_encoding := "" }
              "polling" (qb64 []) "F" [("A", newSocket "A")]) :=
  ⟨rfl, by decide, by decide, by decide,
    c9_transport_validation cfg0 ext0
      { method := "GET", query := [("transport", ["udp"])], accept_encoding := "" }
      { method := "GET", query := [], accept_encoding := "" }
      [("A", newSocket "A")] "F" "udp"
      rfl (by decide) (by decide) (by decide) (by decide) (by decide)
      rfl (by decide) (by decide) (by decide)⟩

/-- Claim C4: during every handshake, the new socket is inserted into the
session table under the fresh sid before the OPEN packet is sent and
before the connect event handler is invoked: the trace of
`_handle_connect` begins with the insertion, followed by the OPEN send and
the connect trigger, and the table visible to both of those calls already
resolves the sid to the new socket. -/
theorem c4_insert_before_open (cfg : Config) (ext : Ext) (env : Environ)
    (transport : String) (b64 : Bool) (sid : String) (table : Table) :
    ∃ rest,
      outTrace (handle_connect cfg ext env transport b64 sid table)
        = Event.insert sid
          :: Event.sendPkt (dictSet table sid (newSocket sid)) sid
               (openPacket cfg.ping_timeout cfg.ping_interval transport sid)
          :: Event.triggerEv (dictSet table sid (newSocket sid)) "connect" sid :: rest
      ∧ dictGet (dictSet table sid (newSocket sid)) sid = some (newSocket sid) := by
  have htr := trigger_event_eq_pynone ext.handler_connect sid env
  have hget := dictGet_set_self table sid (newSocket sid)
  by_cases hws : (transport == "websocket") = true
  · rcases hgo : ext.getOutcome sid with ⟨ret, ca⟩
    cases ret with
    | value v =>
        exact ⟨[Event.getCall sid],
          by simp [handle_connect, htr, hws, hgo, connectTrace, outTrace], hget⟩
    | ioError =>
        exact ⟨[Event.getCall sid],
          by simp [handle_connect, htr, hws, hgo, connectTrace, outTrace], hget⟩
  · simp only [Bool.not_eq_true] at hws
    exact ⟨[Event.pollCall sid],
      by simp [handle_connect, htr, hws, connectTrace, outTrace], hget⟩

theorem closeAll_all_ok (ext : Ext) (t : Table)
    (h : ∀ p ∈ t, ext.closeOk p.1 = true) :
    closeAll ext t = Except.ok (t.map (fun p => Event.closeCall p.1)) := by
  induction t with
  | nil => rfl
  | cons p rest ih =>
      have hp : ext.closeOk p.1 = true := h p (by simp)
      have hrest : ∀ q ∈ rest, ext.closeOk q.1 = true := fun q hq => h q (by simp [hq])
      obtain ⟨sid, sock⟩ := p
      simp [closeAll, hp, ih hrest]

/-- Claim C3 (amended): when every close succeeds, `disconnect()` with no
sid closes every entry and leaves the table empty, and `disconnect(sid)`
on a present sid closes and removes exactly that entry, leaving every
other entry untouched.  (The original claim's tolerance of individual
close failures does not hold: a failing close aborts the bulk operation,
see the counterexample.) -/
theorem c3_disconnect (ext : Ext) (table : Table) (sid : String) (sock : AsyncSocket)
    (hall : ∀ p ∈ table, ext.closeOk p.1 = true)
    (hs : dictGet table sid = some sock) (hc : ext.closeOk sid = true) :
    disconnect ext table none
        = Outcome.ok () [] (table.map (fun p => Event.closeCall p.1))
      ∧ disconnect ext table (some sid)
          = Outcome.ok () (dictDel table sid) [Event.closeCall sid]
      ∧ dictGet (dictDel table sid) sid = none
      ∧ ∀ k, k ≠ sid → dictGet (dictDel table sid) k = dictGet table k := by
  refine ⟨?_, ?_, dictGet_del_self table sid, fun k hk => dictGet_del_ne table sid k hk⟩
  · simp [disconnect, closeAll_all_ok ext table hall]
  · simp [disconnect, hs, hc]

/-- Witness for C3: a two-entry table whose closes both succeed. -/
theorem c3_disconnect_witness :
    (∀ p ∈ [("A", newSocket "A"), ("B", newSocket "B")], ext0.closeOk p.1 = true) ∧
    dictGet [("A", newSocket "A"), ("B", newSocket "B")] "A" = some (newSocket "A") ∧
    ext0.closeOk "A" = true ∧
    (disconnect ext0 [("A", newSocket "A"), ("B", newSocket "B")] none
        = Outcome.ok () []
            ([("A", newSocket "A"), ("B", newSocket "B")].map
              (fun p => Event.closeCall p.1))
      ∧ disconnect ext0 [("A", newSocket "A"), ("B", newSocket "B")] (some "A")
          = Outcome.ok () (dictDel [("A", newSocket "A"), ("B", newSocket "B")] "A")
              [Event.closeCall "A"]
      ∧ dictGet (dictDel [("A", newSocket "A"), ("B", newSocket "B")] "A") "A" = none
      ∧ ∀ k, k ≠ "A" →
          dictGet (dictDel [("A", newSocket "A"), ("B", newSocket "B")] "A") k
            = dictGet [("A", newSocket "A"), ("B", newSocket "B")] k) :=
  ⟨by decide, by decide, rfl,
    c3_disconnect ext0 [("A", newSocket "A"), ("B", newSocket "B")] "A" (newSocket "A")
      (by decide) (by decide) rfl⟩

/-- An oracle bundle whose socket closes always raise. -/
def extFailingClose : Ext := { ext0 with closeOk := fun _ => false }

/-- Counterexample to C3 as stated: with a single entry whose close
raises, `disconnect()` with no sid propagates the exception instead of
tolerating it, and the table is not emptied. -/
theorem c3_counterexample :
    disconnect extFailingClose [("A", newSocket "A")] none
        = Outcome.exn [("A", newSocket "A")] [Event.closeCall "A"]
      ∧ outTable (disconnect extFailingClose [("A", newSocket "A")] none) ≠ [] := by
  decide

/-- An oracle bundle whose get-handler returns Python `None`. -/
def extNoneGet : Ext :=
  { ext0 with getOutcome := fun _ => { ret := GetRet.value Raw.pynone, closedAfter := false } }

/-- Counterexample to C7 as stated: the dispatcher produces the
non-descriptor value `None` (from the socket's get-handler), but
`handle_request` returns an empty list instead of that value, because
line 117 reads `return r or []`. -/
theorem c7_counterexample :
    outResult (dispatch cfg0 extNoneGet
        { method := "GET", query := [("sid", ["A"])], accept_encoding := "" }
        [("A", newSocket "A")] "F")
      = some (DispatchResult.raw Raw.pynone)
    ∧ outResult (handle_request cfg0 extNoneGet
        { method := "GET", query := [("sid", ["A"])], accept_encoding := "" }
        [("A", newSocket "A")] "F")
      = some (FinalResponse.passthrough (Raw.list []))
    ∧ Raw.list [] ≠ Raw.pynone := by
  decide

/-- Claim C7 (amended): a non-descriptor dispatcher result is returned as
a raw pass-through — truthy values unchanged, falsy values (such as
`None`) replaced by an empty list — and in either case no compression,
CORS headers or adapter finalization is applied (the result is a
pass-through, not an assembled HTTP response). -/
theorem c7_passthrough (cfg : Config) (ext : Ext) (env : Environ) (table : Table)
    (fresh : String) (v : Raw) (t : Table) (tr : List Event)
    (hd : dispatch cfg ext env table fresh = Outcome.ok (DispatchResult.raw v) t tr) :
    (truthy v = true →
        handle_request cfg ext env table fresh
          = Outcome.ok (FinalResponse.passthrough v) t tr)
      ∧ (truthy v = false →
        handle_request cfg ext env table fresh
          = Outcome.ok (FinalResponse.passthrough (Raw.list [])) t tr) := by
  constructor <;> intro h <;> simp [handle_request, hd, finalize, h]

/-- An oracle bundle whose get-handler returns an opaque truthy object
(a websocket takeover response). -/
def extObjGet : Ext :=
  { ext0 with getOutcome := fun _ => { ret := GetRet.value (Raw.obj "ws"), closedAfter := false } }

/-- Witness for C7: a GET whose get-handler returns a truthy takeover
object; `handle_request` passes it through unchanged. -/
theorem c7_passthrough_witness :
    dispatch cfg0 extObjGet
        { method := "GET", query := [("sid", ["A"])], accept_encoding := "" }
        [("A", newSocket "A")] "F"
      = Outcome.ok (DispatchResult.raw (Raw.obj "ws")) [("A", newSocket "A")]
          [Event.getCall "A"] ∧
    (truthy (Raw.obj "ws") = true →
      handle_request cfg0 extObjGet
          { method := "GET", query := [("sid", ["A"])], accept_encoding := "" }
          [("A", newSocket "A")] "F"
        = Outcome.ok (FinalResponse.passthrough (Raw.obj "ws")) [("A", newSocket "A")]
            [Event.getCall "A"]) :=
  ⟨by decide,
    (c7_passthrough cfg0 extObjGet
      { method := "GET", query := [("sid", ["A"])], accept_encoding := "" }
      [("A", newSocket "A")] "F" (Raw.obj "ws") [("A", newSocket "A")]
      [Event.getCall "A"] (by decide)).1⟩

/-- Whether a header list carries a header with the given name. -/
def hasHeader (hs : List (String × String)) (k : String) : Bool :=
  hs.any (fun p => p.1 == k)

/-- Written from the spec's words, for comparison with the code: "first
match in that configured order wins" — the first of the server's
configured methods that the request accepts. -/
def specFirstConfiguredMatch (methods encodings : List String) : Option String :=
  methods.find? (fun m => encodings.contains m)

/-- A configuration with compression on and a threshold of 1, methods
gzip before deflate. -/
def cfgSmallThreshold : Config :=
  { cfg0 with compression_threshold := 1 }

/-- Counterexample to C2 as stated: the request accepts `deflate, gzip`
(in that order) and the server's configured order is gzip before deflate.
The code names `deflate` — the first match in the request's order — while
the first match in the server's configured order is `gzip`. -/
theorem c2_counterexample :
    finalize cfgSmallThreshold ext0
        { method := "GET", query := [], accept_encoding := "deflate, gzip" }
        (DispatchResult.descriptor bad_request)
      = FinalResponse.http 400 [("Content-Encoding", "deflate")] "Bad Request"
    ∧ specFirstConfiguredMatch cfgSmallThreshold.compression_methods
        (parse_accept_encodings "deflate, gzip") = some "gzip"
    ∧ ("deflate" : String) ≠ "gzip" := by
  decide

/-- Claim C2 (amended): a Content-Encoding header is present in the
finalized response iff compression is enabled, the body length is at
least the threshold, and the request's accepted encodings intersect the
configured methods; when present, the header names the first match taken
in the request's accepted-encodings order (not the server's configured
order), and the body is replaced by its compressed form. -/
theorem c2_content_encoding (cfg : Config) (ext : Ext) (env : Environ) (r : RDescriptor)
    (h1 : hasHeader r.headers "Content-Encoding" = false)
    (h2 : hasHeader (ext.cors env) "Content-Encoding" = false) :
    (hasHeader ((apply_compression cfg ext env r).headers ++ ext.cors env) "Content-Encoding"
        = true
      ↔ cfg.http_compression = true ∧ cfg.compression_threshold ≤ r.response.length ∧
          ∃ e ∈ parse_accept_encodings env.accept_encoding, e ∈ cfg.compression_methods)
    ∧ (∀ enc, (parse_accept_encodings env.accept_encoding).find?
            (fun e => cfg.compression_methods.contains e) = some enc →
        cfg.http_compression = true → cfg.compression_threshold ≤ r.response.length →
        finalize cfg ext env (DispatchResult.descriptor r)
          = FinalResponse.http r.status
              ((r.headers ++ [("Content-Encoding", enc)]) ++ ext.cors env)
              (ext.compress enc r.response)) := by
  simp only [hasHeader] at h1 h2
  constructor
  · by_cases hc : cfg.http_compression = true
    · by_cases hl : cfg.compression_threshold ≤ r.response.length
      · rcases hf : (parse_accept_encodings env.accept_encoding).find?
            (fun e => cfg.compression_methods.contains e) with _ | enc
        · have hnone := List.find?_eq_none.mp hf
          simp only [hasHeader, apply_compression, hc, hl, hf, decide_True,
            Bool.and_self, if_true]
          simp [List.any_append, h1, h2, hl]
          intro e he hem
          exact absurd (by simpa using hem) (hnone e he)
        · have hmem := List.mem_of_find?_eq_some hf
          have hP : cfg.compression_methods.contains enc = true := List.find?_some hf
          simp only [hasHeader, apply_compression, hc, hl, hf, decide_True,
            Bool.and_self, if_true]
          simp [List.any_append, h1, h2, hl]
          exact ⟨enc, hmem, by simpa using hP⟩
      · simp [hasHeader, apply_compression, hc, hl, List.any_append, h1, h2]
    · simp only [Bool.not_eq_true] at hc
      simp [hasHeader, apply_compression, hc, List.any_append, h1, h2]
  · intro enc hf hco hlo
    simp only [finalize_descriptor, apply_compression, hco, hlo, hf, decide_True,
      Bool.and_self, if_true]

/-- Witness for C2 (amended): a descriptor whose body meets the
threshold, a request accepting `deflate, gzip`, and headers free of any
prior Content-Encoding; the header is present and names `deflate`. -/
theorem c2_content_encoding_witness :
    hasHeader bad_request.headers "Content-Encoding" = false ∧
    hasHeader (ext0.cors { method := "GET", query := [], accept_encoding := "deflate, gzip" })
        "Content-Encoding" = false ∧
    ((hasHeader
        ((apply_compression cfgSmallThreshold ext0
            { method := "GET", query := [], accept_encoding := "deflate, gzip" }
            bad_request).headers
          ++ ext0.cors { method := "GET", query := [], accept_encoding := "deflate, gzip" })
        "Content-Encoding" = true
      ↔ cfgSmallThreshold.http_compression = true ∧
          cfgSmallThreshold.compression_threshold ≤ bad_request.response.length ∧
          ∃ e ∈ parse_accept_encodings "deflate, gzip", e ∈ cfgSmallThreshold.compression_methods)
    ∧ (∀ enc, (parse_accept_encodings "deflate, gzip").find?
            (fun e => cfgSmallThreshold.compression_methods.contains e) = some enc →
        cfgSmallThreshold.http_compression = true →
        cfgSmallThreshold.compression_threshold ≤ bad_request.response.length →
        finalize cfgSmallThreshold ext0
            { method := "GET", query := [], accept_encoding := "deflate, gzip" }
            (DispatchResult.descriptor bad_request)
          = FinalResponse.http bad_request.status
              ((bad_request.headers ++ [("Content-Encoding", enc)])
                ++ ext0.cors { method := "GET", query := [], accept_encoding := "deflate, gzip" })
              (ext0.compress enc bad_request.response))) :=
  ⟨by decide, by decide,
    c2_content_encoding cfgSmallThreshold ext0
      { method := "GET", query := [], accept_encoding := "deflate, gzip" }
      bad_request (by decide) (by decide)⟩

/-- An oracle bundle whose registered connect handler explicitly rejects
every connection by returning `False`. -/
def extRejectingHandler : Ext :=
  { ext0 with handler_connect := some (fun _ _ => PyVal.pyfalse) }

/-- The handshake request of the C1 failing input. -/
def envPollingHandshake : Environ :=
  { method := "GET", query := [("transport", ["polling"])], accept_encoding := "" }

/-- Claim C1 (code bug, evaluated at the failing input): the registered
connect handler returns `False`, yet the handshake response is the
ordinary 200 descriptor — not 401 — and the fresh sid is still in the
session table, because `_trigger_event` (lines 166-172) has no `return`
statement and so discards the handler's result, making the
`is False` rejection branch of `_handle_connect` unreachable. -/
theorem c1_rejection_branch_dead :
    (extRejectingHandler.handler_connect.map (fun h => h "S1" envPollingHandshake)
        = some PyVal.pyfalse)
    ∧ trigger_event extRejectingHandler.handler_connect "S1" envPollingHandshake
        = PyVal.pynone
    ∧ outResult (handle_connect cfg0 extRejectingHandler envPollingHandshake
          "polling" false "S1" [])
        = some (DispatchResult.descriptor { status := 200, headers := [], response := "" })
    ∧ dictGet (outTable (handle_connect cfg0 extRejectingHandler envPollingHandshake
          "polling" false "S1" [])) "S1"
        = some { sid := "S1", connected := true, closed := false }
    ∧ outResult (handle_connect cfg0 extRejectingHandler envPollingHandshake
          "polling" false "S1" [])
        ≠ some (DispatchResult.descriptor unauthorized) := by
  decide

end EngineIO
